import Mathlib

/-!
Verification development for the opsie Slack-bot repository.

The development shallowly embeds the request categorization and routing
engine (`src/utils/request_categorizer.py`), the conversation orchestrator
(`src/agent/ai_agent.py`) and the provider registry
(`src/providers/__init__.py`) as executable Lean definitions, and proves
the specification claims about them.

Modelling conventions:
* Python strings are Lean `String`s; Python `str.lower`, `str.strip`,
  `str.title`, `in` (substring), `replace` are implemented below for the
  ASCII texts the code manipulates.
* `re.findall` counting is implemented by a backtracking matcher for the
  exact regular-expression language used by `CATEGORY_PATTERNS`
  (literals, alternation `(a|b)`, `\b`, `\s+`, `c?`, `.*`), with Python
  semantics: leftmost scan, left-biased alternation, greedy quantifiers,
  non-overlapping matches, `.` not matching a newline.
* Scores are kept in half-points (`Nat`): a text match contributes 2 and a
  thread-context match contributes 1, mirroring the source's 1 and 0.5.
  Every float the source produces is an exact multiple of 0.5, so order
  and zero-tests coincide.
* The LLM backend (`ai_model.generate_response`) is modelled as a function
  `List AIMessage → Except String AIResponse`; an `Except.error` value
  models a raised exception.  The prompt-file loader is modelled as a
  function `String → Option String` (`None` models a missing file).
* Python `dict`s are insertion-ordered association lists; `pyDictSet`
  updates in place or appends, exactly like CPython assignment.
-/

namespace Opsie

/-! ## Python string helpers -/

/-- ASCII model of Python `str.lower` (all texts handled by the bot are ASCII). -/
def pyLower (s : String) : String := ⟨s.data.map Char.toLower⟩

/-- Whitespace class of Python `str.strip` and of the regex `\s` (ASCII part). -/
def isPySpace (c : Char) : Bool :=
  c = ' ' || c = '\t' || c = '\n' || c = '\x0b' || c = '\x0c' || c = '\r'

/-- Model of Python `str.strip()` with no arguments. -/
def pyStrip (s : String) : String :=
  ⟨((s.data.dropWhile (fun c => isPySpace c)).reverse.dropWhile (fun c => isPySpace c)).reverse⟩

/-- Helper for `pyContains`: does `needle` occur at the head of the text? -/
def leadsWith : List Char → List Char → Bool
  | [], _ => true
  | _ :: _, [] => false
  | a :: as, b :: bs => a = b && leadsWith as bs

/-- Occurrence of `needle` anywhere in the text (helper for `pyContains`). -/
def listContainsSub (needle : List Char) : List Char → Bool
  | [] => leadsWith needle []
  | c :: rest => leadsWith needle (c :: rest) || listContainsSub needle rest

/-- Model of the Python substring test `needle in hay`. -/
def pyContains (hay needle : String) : Bool := listContainsSub needle.data hay.data

/-- Helper for `pyTitle`; the flag records whether the previous character was cased. -/
def pyTitleAux : Bool → List Char → List Char
  | _, [] => []
  | prevCased, c :: rest =>
    if c.isAlpha then
      (if prevCased then c.toLower else c.toUpper) :: pyTitleAux true rest
    else c :: pyTitleAux false rest

/-- ASCII model of Python `str.title()`. -/
def pyTitle (s : String) : String := ⟨pyTitleAux false s.data⟩

/-- Model of Python `str.replace(old, new)` for single-character arguments. -/
def pyReplaceChar (old new : Char) (s : String) : String :=
  ⟨s.data.map (fun c => if c = old then new else c)⟩

/-- Python `repr` of a list of simple strings, as used in the factory error message. -/
def pyReprStrList (l : List String) : String :=
  "[" ++ String.intercalate ", " (l.map (fun s => "\x27" ++ s ++ "\x27")) ++ "]"

/-! ## Insertion-ordered dictionaries (Python `dict`) -/

/-- Python `d.get(k)` / `k in d`: first (and, for dicts, only) binding of `k`. -/
def pyDictGet {α β : Type} [DecidableEq α] : List (α × β) → α → Option β
  | [], _ => none
  | (k, v) :: d, c => if k = c then some v else pyDictGet d c

/-- Python `d[k] = v`: update in place if the key exists, else append at the end. -/
def pyDictSet {α β : Type} [DecidableEq α] : List (α × β) → α → β → List (α × β)
  | [], c, v => [(c, v)]
  | (k, w) :: d, c, v => if k = c then (k, v) :: d else (k, w) :: pyDictSet d c v

/-! ## The regex engine used by `CATEGORY_PATTERNS`

The patterns in `request_categorizer.py` use only: literal characters,
word-boundary `\b`, alternation of literals, `\s+`, an optional character
`c?`, and `.*`.  `Rx` is that language; `Rx.matchList` enumerates the
possible matches at one position in Python preference order (first
element = the match Python's backtracking engine commits to).  Each entry
carries the character preceding the rest of the input (needed by `\b`)
and the remaining input. -/

/-- Word character class of the regex `\b` boundary (`\w`, ASCII part). -/
def isWordChar (c : Char) : Bool := c.isAlphanum || c = '_'

/-- Syntax of the regular expressions appearing in `CATEGORY_PATTERNS`. -/
inductive Rx where
  | eps : Rx
  | chr : Char → Rx
  | anyStar : Rx
  | wsPlus : Rx
  | optChr : Char → Rx
  | bound : Rx
  | seq : Rx → Rx → Rx
  | alt : Rx → Rx → Rx
deriving DecidableEq, Repr

/-- Splits of the input consumed by `.*` (greedy: longest first; `.` stops at a newline). -/
def dotStarSplits (prev : Option Char) : List Char → List (Option Char × List Char)
  | [] => [(prev, [])]
  | c :: rest =>
    if c = '\n' then [(prev, c :: rest)]
    else dotStarSplits (some c) rest ++ [(prev, c :: rest)]

/-- Splits of the input consumed by `\s*` (greedy), used to implement `\s+`. -/
def wsStarSplits (prev : Option Char) : List Char → List (Option Char × List Char)
  | [] => [(prev, [])]
  | c :: rest =>
    if isPySpace c then wsStarSplits (some c) rest ++ [(prev, c :: rest)]
    else [(prev, c :: rest)]

/-- The `\b` test: exactly one side of the current position is a word character. -/
def atBoundary (prev : Option Char) (s : List Char) : Bool :=
  (match prev with | some c => isWordChar c | none => false) !=
  (match s with | c :: _ => isWordChar c | [] => false)

/-- All ways a pattern can match a prefix of `s` (with `prev` the character before
`s`), in Python backtracking preference order. -/
def Rx.matchList : Rx → Option Char → List Char → List (Option Char × List Char)
  | .eps, prev, s => [(prev, s)]
  | .chr c, _, s =>
    match s with
    | [] => []
    | x :: rest => if x = c then [(some x, rest)] else []
  | .anyStar, prev, s => dotStarSplits prev s
  | .wsPlus, _, s =>
    match s with
    | [] => []
    | x :: rest => if isPySpace x then wsStarSplits (some x) rest else []
  | .optChr c, prev, s =>
    (match s with
     | [] => []
     | x :: rest => if x = c then [(some x, rest)] else []) ++ [(prev, s)]
  | .bound, prev, s => if atBoundary prev s then [(prev, s)] else []
  | .seq a b, prev, s => (a.matchList prev s).flatMap (fun pr => b.matchList pr.1 pr.2)
  | .alt a b, prev, s => a.matchList prev s ++ b.matchList prev s

/-- One scanning pass of `re.findall`: at each position try the pattern; on a match
commit to the preferred result and resume after it (a zero-width match advances by
one character, as in Python 3.7+).  The fuel is an upper bound on the number of
scan positions; `findallCount` supplies `length + 1`, which is exact. -/
def scanAux (r : Rx) : Nat → Option Char → List Char → Nat
  | 0, _, _ => 0
  | fuel + 1, prev, s =>
    match r.matchList prev s with
    | [] =>
      match s with
      | [] => 0
      | c :: rest => scanAux r fuel (some c) rest
    | (p, rest') :: _ =>
      if rest'.length < s.length then 1 + scanAux r fuel p rest'
      else
        match s with
        | [] => 1
        | c :: rest => 1 + scanAux r fuel (some c) rest

/-- Model of `len(re.findall(pattern, text))` (the text is already lowercased, so
`re.IGNORECASE` is inert). -/
def findallCount (r : Rx) (s : List Char) : Nat := scanAux r (s.length + 1) none s

/-- Regex denoting a literal string. -/
def rxStr (s : String) : Rx := s.data.foldr (fun c r => Rx.seq (Rx.chr c) r) Rx.eps

/-- Left-biased alternation `(r1|r2|...)`. -/
def rxAlts : List Rx → Rx
  | [] => Rx.eps
  | [r] => r
  | r :: rs => Rx.alt r (rxAlts rs)

/-- Sequencing of a list of regexes. -/
def rxSeqs : List Rx → Rx
  | [] => Rx.eps
  | [r] => r
  | r :: rs => Rx.seq r (rxSeqs rs)

/-- The shape `\b(w1|w2|...)\b` for literal alternatives. -/
def wordAlt (ws : List String) : Rx := rxSeqs [Rx.bound, rxAlts (ws.map rxStr), Rx.bound]

/-! ## Request categories and the pattern table (`request_categorizer.py`, lines 16-85) -/

/-- The `RequestCategory` enum. -/
inductive RequestCategory where
  | TECHNICAL_ISSUE
  | FYI
  | CUSTOMER_QUERY
  | ENGINEERING_QUERY
  | FEATURE_REQUEST
  | FEATURE_ENABLEMENT
  | PR_REVIEW
  | UNKNOWN
deriving DecidableEq, Repr, Fintype

/-- The `value` attribute of each `RequestCategory` member. -/
def RequestCategory.value : RequestCategory → String
  | .TECHNICAL_ISSUE => "technical_issue"
  | .FYI => "fyi"
  | .CUSTOMER_QUERY => "customer_query"
  | .ENGINEERING_QUERY => "engineering_query"
  | .FEATURE_REQUEST => "feature_request"
  | .FEATURE_ENABLEMENT => "feature_enablement"
  | .PR_REVIEW => "pr_review"
  | .UNKNOWN => "unknown"

/-- Patterns of `RequestCategory.TECHNICAL_ISSUE` (lines 33-38). -/
def tiPatterns : List Rx :=
  [ wordAlt ["error", "bug", "issue", "problem", "fail", "broken", "crash", "not working"],
    wordAlt ["stack trace", "exception", "timeout", "500", "404", "502", "503"],
    wordAlt ["debug", "troubleshoot", "investigate"],
    wordAlt ["reproduce", "repro", "steps"] ]

/-- Patterns of `RequestCategory.FYI` (lines 39-46). -/
def fyiPatterns : List Rx :=
  [ wordAlt ["fyi"],
    wordAlt ["for your information"],
    wordAlt ["heads up"],
    rxSeqs [wordAlt ["jira"], Rx.anyStar, wordAlt ["ticket", "issue"]],
    rxSeqs [wordAlt ["update"], Rx.anyStar, wordAlt ["on"]],
    wordAlt ["just wanted to let you know"] ]

/-- Patterns of `RequestCategory.CUSTOMER_QUERY` (lines 47-53). -/
def cqPatterns : List Rx :=
  [ rxSeqs [wordAlt ["customer"], Rx.anyStar, wordAlt ["ask", "question", "query", "request"]],
    rxSeqs [wordAlt ["client"], Rx.anyStar, wordAlt ["ask", "question", "query", "request"]],
    rxSeqs [wordAlt ["user"], Rx.anyStar, wordAlt ["ask", "question", "query", "request"]],
    rxSeqs [Rx.bound, rxStr "how", Rx.wsPlus, rxStr "do", Rx.wsPlus, rxStr "customer",
            Rx.optChr 's', Rx.bound],
    rxSeqs [Rx.bound, rxStr "can", Rx.wsPlus, rxStr "customer", Rx.optChr 's', Rx.bound] ]

/-- Patterns of `RequestCategory.ENGINEERING_QUERY` (lines 54-62). -/
def eqPatterns : List Rx :=
  [ rxSeqs [wordAlt ["internal"], Rx.anyStar, wordAlt ["team", "query", "question"]],
    rxSeqs [wordAlt ["engineering"], Rx.anyStar, wordAlt ["team", "query", "question"]],
    wordAlt ["confluence"],
    wordAlt ["df-owned"],
    rxSeqs [Rx.bound, rxStr "df", Rx.wsPlus, rxStr "owned", Rx.bound],
    rxSeqs [Rx.bound, rxStr "knowledge", Rx.wsPlus, rxStr "transfer", Rx.bound],
    rxSeqs [Rx.bound, rxStr "kt", Rx.wsPlus, rxStr "doc", Rx.optChr 's', Rx.bound] ]

/-- Patterns of `RequestCategory.FEATURE_REQUEST` (lines 63-70). -/
def frPatterns : List Rx :=
  [ rxSeqs [Rx.bound, rxStr "new", Rx.wsPlus, rxStr "feature", Rx.bound],
    rxSeqs [Rx.bound, rxStr "feature", Rx.wsPlus, rxStr "request", Rx.bound],
    rxSeqs [wordAlt ["customer"], Rx.anyStar, wordAlt ["want", "need", "request"], Rx.anyStar,
            wordAlt ["feature"]],
    rxSeqs [Rx.bound, rxStr "can", Rx.wsPlus, rxStr "we", Rx.wsPlus, rxStr "add", Rx.bound],
    rxSeqs [Rx.bound, rxStr "would", Rx.wsPlus, rxStr "it", Rx.wsPlus, rxStr "be", Rx.wsPlus,
            rxStr "possible", Rx.bound],
    wordAlt ["enhancement"] ]

/-- Patterns of `RequestCategory.FEATURE_ENABLEMENT` (lines 71-77). -/
def fePatterns : List Rx :=
  [ rxSeqs [wordAlt ["enable"], Rx.anyStar, wordAlt ["feature"]],
    rxSeqs [wordAlt ["feature"], Rx.anyStar, Rx.bound,
            rxAlts [rxStr "enable", rxStr "activation",
                    rxSeqs [rxStr "turn", Rx.wsPlus, rxStr "on"]], Rx.bound],
    rxSeqs [wordAlt ["validate"], Rx.anyStar, Rx.bound, rxStr "feature", Rx.wsPlus,
            rxStr "support", Rx.bound],
    rxSeqs [Rx.bound, rxStr "feature", Rx.wsPlus, rxStr "flag", Rx.bound],
    rxSeqs [wordAlt ["toggle"], Rx.anyStar, wordAlt ["feature"]] ]

/-- Patterns of `RequestCategory.PR_REVIEW` (lines 78-84). -/
def prPatterns : List Rx :=
  [ rxSeqs [Rx.bound, rxStr "pr", Rx.wsPlus, rxStr "review", Rx.bound],
    rxSeqs [Rx.bound, rxStr "pull", Rx.wsPlus, rxStr "request", Rx.bound, Rx.anyStar,
            wordAlt ["review"]],
    rxSeqs [Rx.bound, rxStr "code", Rx.wsPlus, rxStr "review", Rx.bound],
    rxSeqs [wordAlt ["review"], Rx.anyStar, wordAlt ["pr"]],
    wordAlt ["mobile-pr-reviews"] ]

/-- The `CATEGORY_PATTERNS` class dictionary, in declaration (= iteration) order. -/
def CATEGORY_PATTERNS : List (RequestCategory × List Rx) :=
  [ (.TECHNICAL_ISSUE, tiPatterns),
    (.FYI, fyiPatterns),
    (.CUSTOMER_QUERY, cqPatterns),
    (.ENGINEERING_QUERY, eqPatterns),
    (.FEATURE_REQUEST, frPatterns),
    (.FEATURE_ENABLEMENT, fePatterns),
    (.PR_REVIEW, prPatterns) ]

/-- Accessor for the pattern list of a category (`UNKNOWN` has no patterns). -/
def patternsOf : RequestCategory → List Rx
  | .TECHNICAL_ISSUE => tiPatterns
  | .FYI => fyiPatterns
  | .CUSTOMER_QUERY => cqPatterns
  | .ENGINEERING_QUERY => eqPatterns
  | .FEATURE_REQUEST => frPatterns
  | .FEATURE_ENABLEMENT => fePatterns
  | .PR_REVIEW => prPatterns
  | .UNKNOWN => []

/-! ## The regex stage `_categorize_with_regex` (lines 234-265)

The inner loop of lines 242-249 (per-category text score, entered into
`category_scores` only when positive) is `textFold`; the thread-context
loop of lines 252-258 is `ctxFold`; the `max(..., key=...)` call of line
262 is `pyMaxByVal` (Python `max` keeps the first of equal maxima).  The
table is a parameter of the folds so the lemmas below can proceed by
induction; `_categorize_with_regex` instantiates it with
`CATEGORY_PATTERNS`. -/

/-- A thread-context entry as consumed by the categorizer and the agent. -/
structure ThreadMsg where
  user_id : String
  text : String
  timestamp : String
deriving DecidableEq, Repr

/-- Score dictionary: insertion-ordered, `Nat`-valued (half-points). -/
abbrev ScoreDict := List (RequestCategory × Nat)

/-- Total match count of a pattern list against a (lowercased) text, as summed by
the loop in lines 243-246 (one unit per `re.findall` hit; the loop accumulates
left-to-right, which is the same sum). -/
def patternScore (t : List Char) : List Rx → Nat
  | [] => 0
  | p :: ps => findallCount p t + patternScore t ps

/-- Lines 242-249: enter `2 * score` (half-points) for each category whose text
score is positive, in table order. -/
def textFold (t : List Char) : List (RequestCategory × List Rx) → ScoreDict → ScoreDict
  | [], d => d
  | cp :: rest, d =>
    textFold t rest
      (if 0 < patternScore t cp.2 then pyDictSet d cp.1 (2 * patternScore t cp.2) else d)

/-- Lines 256-258 for the patterns of one category on one message: add each match
count (0.5 per hit = 1 half-point) to the category's running score, creating the
entry on the first pattern if needed. -/
def patsFold (mt : List Char) (c : RequestCategory) : List Rx → ScoreDict → ScoreDict
  | [], d => d
  | p :: ps, d =>
    patsFold mt c ps (pyDictSet d c ((pyDictGet d c).getD 0 + findallCount p mt))

/-- Lines 255-258: the scan of one thread message over the whole table. -/
def msgFold (mt : List Char) : List (RequestCategory × List Rx) → ScoreDict → ScoreDict
  | [], d => d
  | cp :: rest, d => msgFold mt rest (patsFold mt cp.1 cp.2 d)

/-- Lines 252-258: the scan over all thread messages. -/
def ctxFold (tbl : List (RequestCategory × List Rx)) : List ThreadMsg → ScoreDict → ScoreDict
  | [], d => d
  | m :: ms, d => ctxFold tbl ms (msgFold (pyLower m.text).data tbl d)

/-- Python `max(items, key=lambda x: x[1])`: first element of maximal value. -/
def pyMaxByVal (best : RequestCategory × Nat) :
    List (RequestCategory × Nat) → RequestCategory × Nat
  | [] => best
  | e :: rest => pyMaxByVal (if e.2 > best.2 then e else best) rest

/-- The `category_scores` dictionary as of line 260 (`if thread_context:` is Python
truthiness: `None` and `[]` both skip the context scan). -/
def regexScores (text : String) (thread_context : Option (List ThreadMsg)) : ScoreDict :=
  let d := textFold (pyLower text).data CATEGORY_PATTERNS []
  match thread_context with
  | some (m :: ms) => ctxFold CATEGORY_PATTERNS (m :: ms) d
  | _ => d

/-- Lines 234-265: `_categorize_with_regex`. -/
def _categorize_with_regex (text : String) (thread_context : Option (List ThreadMsg)) :
    RequestCategory :=
  match regexScores text thread_context with
  | [] => .UNKNOWN
  | e :: rest => (pyMaxByVal e rest).1

/-- Lines 229-232: the sync `categorize_request` wrapper uses only the regex stage
(the `ai_model` argument is accepted and ignored). -/
def categorize_request (text : String) (thread_context : Option (List ThreadMsg)) :
    RequestCategory :=
  _categorize_with_regex text thread_context

/-- Total match count of a pattern list over the thread-context texts. -/
def threadScore (ps : List Rx) : List ThreadMsg → Nat
  | [] => 0
  | m :: ms => patternScore (pyLower m.text).data ps + threadScore ps ms

/-- Aggregate score of one category (in half-points): twice the text match count
plus one per thread-context match, the thread part counted only when the context
is truthy — exactly what `regexScores` records for that category. -/
def aggScore (text : String) (thread_context : Option (List ThreadMsg))
    (c : RequestCategory) : Nat :=
  2 * patternScore (pyLower text).data (patternsOf c) +
    (match thread_context with
     | some (m :: ms) => threadScore (patternsOf c) (m :: ms)
     | _ => 0)

/-! ## Routing table and response rendering (lines 88-137 and 371-534)

The source file `request_categorizer.py` is stored with mojibake ("ðŸ”§"
and the like): its emoji were UTF-8 bytes decoded as cp1252 and re-encoded.
The string literals below reproduce the file's actual characters
code-point for code-point (one non-obvious case: the warning sign's third
code point is a no-break space, written ` `). -/

/-- Routing record for one category (the values of the `ROUTING_INFO` dict). -/
structure RoutingInfo where
  action : String
  route_to : String
  priority : String
  required_info : List String
deriving DecidableEq, Repr

/-- The `ROUTING_INFO` class dictionary (lines 88-137). -/
def ROUTING_INFO : List (RequestCategory × RoutingInfo) :=
  [ (.TECHNICAL_ISSUE,
      ⟨"validate_and_triage", "ops_debugging", "high",
       ["Problem description", "Steps to reproduce", "Expected vs actual behavior",
        "Environment details", "Error messages/logs"]⟩),
    (.FYI, ⟨"acknowledge", "ops_team", "low", []⟩),
    (.CUSTOMER_QUERY,
      ⟨"route_to_product", "df_product", "medium",
       ["Customer context", "Specific query details"]⟩),
    (.ENGINEERING_QUERY,
      ⟨"respond_directly", "df_ops", "medium",
       ["Technical context", "Component details"]⟩),
    (.FEATURE_REQUEST,
      ⟨"verify_and_route", "df_product", "medium",
       ["Customer demand details", "Feature description"]⟩),
    (.FEATURE_ENABLEMENT,
      ⟨"verify_and_route", "df_product", "medium",
       ["Feature details", "Support validation"]⟩),
    (.PR_REVIEW, ⟨"redirect", "mobile_pr_reviews", "low", []⟩) ]

/-- Lines 371-379: `get_routing_info`, total via the default acknowledgment record. -/
def get_routing_info (category : RequestCategory) : RoutingInfo :=
  (pyDictGet ROUTING_INFO category).getD ⟨"acknowledge", "ops_team", "medium", []⟩

/-- Lines 409-419: the missing-information checklist of the technical-issue
response, three independent substring heuristics on the lowercased input. -/
def technicalIssueMissingInfo (text : String) : List String :=
  let text_lower := pyLower text
  (if !pyContains text_lower "reproduce" && !pyContains text_lower "repro" then
     ["Steps to reproduce"] else []) ++
  (if !pyContains text_lower "error" && !pyContains text_lower "exception" then
     ["Error messages/logs"] else []) ++
  (if !pyContains text_lower "environment" && !pyContains text_lower "version" then
     ["Environment details"] else [])

/-- The routing footer shared by all category responses (priority / routing lines). -/
def priorityLine (routing_info : RoutingInfo) : String :=
  "**Priority:** " ++ pyTitle routing_info.priority ++ "\n" ++
  "**Routing:** " ++ pyTitle (pyReplaceChar '_' ' ' routing_info.route_to)

/-- Lines 403-432: `_generate_technical_issue_response`.  (`required_info` is read
on line 410 but never used afterwards; `thread_context` is likewise unused.) -/
def _generate_technical_issue_response (routing_info : RoutingInfo) (text : String)
    (_thread_context : Option (List ThreadMsg)) : String :=
  let response := "ðŸ”§ **Technical Issue Detected**\n\n" ++
    "I\x27m triaging this technical issue and will validate the debugging information.\n\n"
  let missing_info := technicalIssueMissingInfo text
  let response := response ++
    (if missing_info ≠ [] then
      "âš ï¸ **Missing Information:**\n" ++
      String.join (missing_info.map (fun info => "â€¢ " ++ info ++ "\n")) ++
      "\nPlease provide the missing details for proper debugging. " ++
      "The complete debugging format is available in the channel description.\n\n"
    else "")
  response ++ priorityLine routing_info ++ "\n" ++
    "**Action:** " ++ pyTitle (pyReplaceChar '_' ' ' routing_info.action)

/-- Lines 434-446: `_generate_fyi_response`. -/
def _generate_fyi_response (routing_info : RoutingInfo) (text : String) : String :=
  "ðŸ“‹ **FYI Acknowledged**\n\n" ++
  "Thank you for the update. I\x27ve noted this information.\n\n" ++
  (if pyContains (pyLower text) "jira" then
    "I see this relates to a Jira ticket. I\x27ll track any follow-up actions needed.\n\n"
  else "") ++
  priorityLine routing_info

/-- Lines 448-461: `_generate_customer_query_response`. -/
def _generate_customer_query_response (routing_info : RoutingInfo) (_text : String) : String :=
  "ðŸ‘¥ **Customer Query Detected**\n\n" ++
  "This appears to be a customer-related query that needs Product team review.\n\n" ++
  "ðŸ”„ **Next Steps:**\n" ++
  "â€¢ Routing to DF Product team for review\n" ++
  "â€¢ Product team will provide the final customer response\n" ++
  "â€¢ I\x27ll ensure proper context is maintained\n\n" ++
  priorityLine routing_info

/-- Lines 463-477: `_generate_engineering_query_response`. -/
def _generate_engineering_query_response (routing_info : RoutingInfo) (text : String) :
    String :=
  "âš™ï¸ **Engineering Query**\n\n" ++
  "I\x27ll handle this internal engineering query directly.\n\n" ++
  (if pyContains (pyLower text) "confluence" then
    "I\x27ll check our Confluence documentation for relevant context.\n"
  else "") ++
  (if pyContains (pyLower text) "df-owned" || pyContains (pyLower text) "df owned" then
    "This relates to DF-owned components. I\x27ll provide technical guidance.\n\n"
  else "") ++
  priorityLine routing_info

/-- Lines 479-492: `_generate_feature_request_response`. -/
def _generate_feature_request_response (routing_info : RoutingInfo) (_text : String) :
    String :=
  "âœ¨ **New Feature Request**\n\n" ++
  "I\x27ve identified this as a new feature request from customer demand.\n\n" ++
  "ðŸ”„ **Next Steps:**\n" ++
  "â€¢ Verifying feature availability in current roadmap\n" ++
  "â€¢ Routing to DF Product team for evaluation\n" ++
  "â€¢ Will provide feasibility assessment\n\n" ++
  priorityLine routing_info

/-- Lines 494-507: `_generate_feature_enablement_response`. -/
def _generate_feature_enablement_response (routing_info : RoutingInfo) (_text : String) :
    String :=
  "ðŸ”§ **Feature Enablement Request**\n\n" ++
  "I\x27ll validate feature support and coordinate enablement.\n\n" ++
  "ðŸ”„ **Next Steps:**\n" ++
  "â€¢ Validating feature support for the environment\n" ++
  "â€¢ Coordinating with DF Product for enablement\n" ++
  "â€¢ Will provide enablement timeline\n\n" ++
  priorityLine routing_info

/-- Lines 509-520: `_generate_pr_review_response`. -/
def _generate_pr_review_response (routing_info : RoutingInfo) (_text : String) : String :=
  "ðŸ”€ **PR Review Request**\n\n" ++
  "Code review requests should be posted in the dedicated review channel.\n\n" ++
  "ðŸ“ **Please redirect to:** `#mobile-pr-reviews`\n\n" ++
  "This ensures your PR gets proper visibility and timely review from the team.\n\n" ++
  priorityLine routing_info

/-- Lines 522-534: `_generate_unknown_response`. -/
def _generate_unknown_response (_text : String) : String :=
  "ðŸ¤” **Request Classification**\n\n" ++
  "I\x27m analyzing your request to determine the best routing and action.\n\n" ++
  "If this is:\n" ++
  "â€¢ **Technical Issue** - Please provide debugging details\n" ++
  "â€¢ **Customer Query** - I\x27ll route to Product team\n" ++
  "â€¢ **Feature Request** - I\x27ll coordinate with Product\n" ++
  "â€¢ **Engineering Query** - I can help directly\n\n" ++
  "Please clarify the type of request if needed."

/-- Lines 381-401: `generate_response`, the category-dispatched renderer. -/
def generate_response (category : RequestCategory) (text : String)
    (thread_context : Option (List ThreadMsg)) : String :=
  let routing_info := get_routing_info category
  match category with
  | .TECHNICAL_ISSUE => _generate_technical_issue_response routing_info text thread_context
  | .FYI => _generate_fyi_response routing_info text
  | .CUSTOMER_QUERY => _generate_customer_query_response routing_info text
  | .ENGINEERING_QUERY => _generate_engineering_query_response routing_info text
  | .FEATURE_REQUEST => _generate_feature_request_response routing_info text
  | .FEATURE_ENABLEMENT => _generate_feature_enablement_response routing_info text
  | .PR_REVIEW => _generate_pr_review_response routing_info text
  | .UNKNOWN => _generate_unknown_response text

/-! ## Messages, model responses and the model boundary -/

/-- Modelled from the spec: `src/models/base.py` is not in the source tree (only
its importers are); per spec §3, a Message is `{role, content, metadata}` with
metadata an optional key-value map. -/
structure AIMessage where
  role : String
  content : String
  metadata : Option (List (String × String))
deriving DecidableEq, Repr

/-- Modelled from the spec: per spec §3 a ModelResponse is
`{content, model_identifier, usage, metadata}`; only `content` is read by the
code verified here. -/
structure AIResponse where
  content : String
  model : String
  usage : Option (List (String × Nat))
deriving DecidableEq, Repr

/-- A backend's `generate_response` coroutine: returns a response or raises
(an `Except.error` models the raised exception's message).  Keyword options
such as `max_tokens` do not influence the embedded control flow and are
elided. -/
abbrev Gen := List AIMessage → Except String AIResponse

/-- A prompt-file loader (`prompt_loader.load_prompt`): `none` models a missing
or unreadable `.prompt` file, for which the source substitutes a fallback. -/
abbrev PromptLoad := String → Option String

/-! ## The LLM stage (`request_categorizer.py`, lines 139-227) -/

/-- Lines 359-361: the hardcoded fallback categorization prompt. -/
def fallbackCategorizationPrompt : String :=
  "You are an expert at categorizing customer engineering requests. \n" ++
  "            Categorize the following request as: TECHNICAL_ISSUE, FYI, CUSTOMER_QUERY, " ++
  "ENGINEERING_QUERY, \n" ++
  "            FEATURE_REQUEST, FEATURE_ENABLEMENT, PR_REVIEW, or UNKNOWN."

/-- Numbered thread-context lines of `_build_categorization_prompt` (line 366-367). -/
def enumContextLines : Nat → List ThreadMsg → String
  | _, [] => ""
  | i, m :: ms => toString i ++ ". " ++ m.text ++ "\n" ++ enumContextLines (i + 1) ms

/-- Lines 349-369: `_build_categorization_prompt` (the last 3 context entries are
appended when the context is truthy; `load_prompt` falsiness covers both `None`
and the empty string). -/
def _build_categorization_prompt (promptLoad : PromptLoad) (_text : String)
    (thread_context : Option (List ThreadMsg)) : String :=
  let base_prompt :=
    match promptLoad "request_categorization" with
    | some p => if p = "" then fallbackCategorizationPrompt else p
    | none => fallbackCategorizationPrompt
  match thread_context with
  | some (m :: ms) =>
    base_prompt ++ "\n\n**Thread Context:**\n" ++
      enumContextLines 1 ((m :: ms).drop ((m :: ms).length - 3))
  | _ => base_prompt

/-- Lines 177-181: the two-message sequence sent to the model by the LLM stage. -/
def categorizationMessages (promptLoad : PromptLoad) (text : String)
    (thread_context : Option (List ThreadMsg)) : List AIMessage :=
  [ ⟨"system", _build_categorization_prompt promptLoad text thread_context, none⟩,
    ⟨"user", "Categorize this request: " ++ text, none⟩ ]

/-- Lines 191-206: the `category_mapping` dict, in declaration order. -/
def category_mapping : List (String × RequestCategory) :=
  [ ("technical_issue", .TECHNICAL_ISSUE),
    ("technical issue", .TECHNICAL_ISSUE),
    ("fyi", .FYI),
    ("customer_query", .CUSTOMER_QUERY),
    ("customer query", .CUSTOMER_QUERY),
    ("engineering_query", .ENGINEERING_QUERY),
    ("engineering query", .ENGINEERING_QUERY),
    ("feature_request", .FEATURE_REQUEST),
    ("feature request", .FEATURE_REQUEST),
    ("feature_enablement", .FEATURE_ENABLEMENT),
    ("feature enablement", .FEATURE_ENABLEMENT),
    ("pr_review", .PR_REVIEW),
    ("pr review", .PR_REVIEW),
    ("unknown", .UNKNOWN) ]

/-- Lines 208-211: first mapping entry whose key occurs in the response text. -/
def firstMappedCategory (category_text : String) : Option RequestCategory :=
  (category_mapping.find? (fun kv => pyContains category_text kv.1)).map (fun kv => kv.2)

/-- The double-quote character (kept out of character literals for hygiene). -/
def quoteChar : Char := Char.ofNat 34

/-- The backslash character. -/
def backslashChar : Char := Char.ofNat 92

/-- Left and right curly-brace characters. -/
def lbraceChar : Char := Char.ofNat 123

/-- Right curly-brace character. -/
def rbraceChar : Char := Char.ofNat 125

/-- JSON whitespace skipping. -/
def jsonSkipWs (s : List Char) : List Char := s.dropWhile (fun c => isPySpace c)

/-- Scan of a JSON string body after its opening quote (escapes unsupported:
they make the mini-parser fail, which collapses to `UNKNOWN` like every other
parse failure; see `pyJsonCategoryBranch`). -/
def jsonStringBody : List Char → Option (List Char × List Char)
  | [] => none
  | c :: rest =>
    if c = quoteChar then some ([], rest)
    else if c = backslashChar then none
    else (jsonStringBody rest).map (fun pr => (c :: pr.1, pr.2))

/-- Scan of one JSON string token (leading whitespace allowed). -/
def jsonStringTok (s : List Char) : Option (List Char × List Char) :=
  match jsonSkipWs s with
  | [] => none
  | c :: rest => if c = quoteChar then jsonStringBody rest else none

/-- Scan of the `"k": "v"` members of a flat JSON object (fuel-bounded; each
member consumes input, so `length + 1` fuel is enough). -/
def jsonMembers : Nat → List Char → Option (List (String × String) × List Char)
  | 0, _ => none
  | fuel + 1, s =>
    match jsonStringTok s with
    | none => none
    | some (k, rest) =>
      match jsonSkipWs rest with
      | c :: rest2 =>
        if c = ':' then
          match jsonStringTok rest2 with
          | none => none
          | some (v, rest3) =>
            match jsonSkipWs rest3 with
            | c2 :: rest4 =>
              if c2 = ',' then
                (jsonMembers fuel rest4).map (fun pr => ((⟨k⟩, ⟨v⟩) :: pr.1, pr.2))
              else some ([(⟨k⟩, ⟨v⟩)], c2 :: rest4)
            | [] => some ([(⟨k⟩, ⟨v⟩)], [])
        else none
      | [] => none

/-- Minimal model of `json.loads` restricted to a flat object of string keys and
string values spanning the whole input.  Any other input yields `none`.  This is
faithful for the categorizer's purposes: a response whose parsed `category`
value belongs to `category_mapping` necessarily contains that key as a
substring, so it is already returned by `firstMappedCategory` before the JSON
branch runs; every remaining outcome of the real `json.loads` (failure, no
`category` field, unmapped value, non-dict value raising and being caught)
produces `UNKNOWN`, exactly as `none` does here. -/
def pyJsonLoadsFlat (s : String) : Option (List (String × String)) :=
  match jsonSkipWs s.data with
  | [] => none
  | c :: rest =>
    if c = lbraceChar then
      match jsonSkipWs rest with
      | c2 :: rest2 =>
        if c2 = rbraceChar then
          if jsonSkipWs rest2 = [] then some [] else none
        else
          match jsonMembers (rest.length + 1) rest with
          | some (obj, rest3) =>
            match jsonSkipWs rest3 with
            | c3 :: rest4 =>
              if c3 = rbraceChar then
                if jsonSkipWs rest4 = [] then some obj else none
              else none
            | [] => none
          | none => none
      | [] => none
    else none

/-- Lines 213-220: the JSON fallback of the response parser: `json.loads`, then
`parsed.get("category", "").lower()` mapped through `category_mapping` with
default `UNKNOWN`; all failures collapse to `UNKNOWN`. -/
def pyJsonCategoryBranch (category_text : String) : RequestCategory :=
  match pyJsonLoadsFlat category_text with
  | some parsed =>
    let category_value := pyLower ((pyDictGet parsed "category").getD "")
    (pyDictGet category_mapping category_value).getD .UNKNOWN
  | none => .UNKNOWN

/-- Lines 167-227: `_categorize_with_llm_async`.  Guard clause for a missing
model (line 171), one `generate_response` call whose exceptions are caught and
mapped to `UNKNOWN` (lines 183-227), substring parse (lines 208-211), JSON
fallback (lines 213-220), default `UNKNOWN` (line 223). -/
def _categorize_with_llm_async (promptLoad : PromptLoad) (text : String)
    (thread_context : Option (List ThreadMsg)) (ai_model : Option Gen) : RequestCategory :=
  match ai_model with
  | none => .UNKNOWN
  | some gen =>
    match gen (categorizationMessages promptLoad text thread_context) with
    | .error _ => .UNKNOWN
    | .ok response =>
      let category_text := pyLower (pyStrip response.content)
      match firstMappedCategory category_text with
      | some category => category
      | none =>
        if pyContains category_text "\x7b" && pyContains category_text "\x7d" then
          pyJsonCategoryBranch category_text
        else .UNKNOWN

/-- Lines 139-165: `categorize_request_async`.  Regex stage first; when a model
is supplied, the LLM stage wins whenever it yields a non-`UNKNOWN` category
(agreement and disagreement both return the LLM result, lines 152-159); the
regex result is the fallback.  The `try` around the LLM stage has nothing left
to catch, since `_categorize_with_llm_async` already maps every failure to
`UNKNOWN`. -/
def categorize_request_async (promptLoad : PromptLoad) (text : String)
    (thread_context : Option (List ThreadMsg)) (ai_model : Option Gen) : RequestCategory :=
  let regex_category := _categorize_with_regex text thread_context
  match ai_model with
  | some _ =>
    let llm_category := _categorize_with_llm_async promptLoad text thread_context ai_model
    if llm_category ≠ .UNKNOWN then llm_category else regex_category
  | none => regex_category

/-! ## Conversation orchestrator (`ai_agent.py`)

The agent state relevant to the claims is `self.conversation_history`, a
dict from user id to message list.  The active backend is the `Gen`
function passed to each operation (the optional provider-switch step of
lines 43-44 / 89-90 only replaces which backend is called before any
history access, so it is modelled by the choice of `gen`).  The
`RuntimeError` raised when no model is loaded (line 61) is itself caught
by the `except` of line 74, so the apology branch also covers it. -/

/-- The per-user conversation history dictionary. -/
abbrev AgentSt := List (String × List AIMessage)

/-- Lines 46-56: get-or-create the user's history, append the user message,
and keep only the last 10 entries. -/
def historyAfterUserMessage (hist : List AIMessage) (message : String) : List AIMessage :=
  let hist := hist ++ [⟨"user", message, none⟩]
  if hist.length > 10 then hist.drop (hist.length - 10) else hist

/-- Lines 33-76: `process_message` (single-turn).  Returns the reply text and the
updated history dict; note that the user message is appended (and the history
truncated) before the model call, so the error branch keeps that mutation. -/
def process_message (st : AgentSt) (user_id message : String) (gen : Gen) :
    String × AgentSt :=
  let hist := historyAfterUserMessage ((pyDictGet st user_id).getD []) message
  let st := pyDictSet st user_id hist
  match gen hist with
  | .ok response =>
    (response.content, pyDictSet st user_id (hist ++ [⟨"assistant", response.content, none⟩]))
  | .error _ =>
    ("Sorry, I encountered an error while processing your message. Please try again.", st)

/-- Lines 176-188: the software-engineer triage system prompt with its hardcoded
fallback when loading fails. -/
def buildSoftwareEngineerPrompt (promptLoad : PromptLoad) : String :=
  match promptLoad "software_engineer_triage" with
  | some p =>
    if p = "" then
      "You are a Senior Software Engineer acting as a technical triage specialist in a " ++
      "Slack support thread. \n            Analyze technical issues, verify debugging " ++
      "information completeness, and provide technical insights."
    else p
  | none =>
    "You are a Senior Software Engineer acting as a technical triage specialist in a " ++
    "Slack support thread. \n            Analyze technical issues, verify debugging " ++
    "information completeness, and provide technical insights."

/-- Lines 190-202: the engineering-support system prompt with its fallback. -/
def buildEngineeringSupportPrompt (promptLoad : PromptLoad) : String :=
  match promptLoad "engineering_support" with
  | some p =>
    if p = "" then
      "You are a Senior Software Engineer providing technical support to internal " ++
      "engineering teams. \n            Provide detailed technical insights, reference " ++
      "documentation, and offer collaborative solutions."
    else p
  | none =>
    "You are a Senior Software Engineer providing technical support to internal " ++
    "engineering teams. \n            Provide detailed technical insights, reference " ++
    "documentation, and offer collaborative solutions."

/-- Lines 114-139: the message sequence built by `_process_technical_thread_message`:
category-dependent system prompt, every context entry as a "user" message (the
role test of line 129 yields "user" in both branches, reproduced verbatim) with
author and timestamp in metadata, and the stripped current message appended
unless it equals the last context entry's text. -/
def threadMessages (promptLoad : PromptLoad) (user_id message : String)
    (thread_context : List ThreadMsg) (category : RequestCategory) : List AIMessage :=
  let system_prompt :=
    if category = .TECHNICAL_ISSUE then buildSoftwareEngineerPrompt promptLoad
    else buildEngineeringSupportPrompt promptLoad
  let msgs := (⟨"system", system_prompt, none⟩ : AIMessage) ::
    thread_context.map (fun m =>
      ⟨if m.user_id = user_id then "user" else "user", m.text,
       some [("user_id", m.user_id), ("timestamp", m.timestamp)]⟩)
  let current_msg_text := pyStrip message
  match thread_context.getLast? with
  | none => msgs ++ [⟨"user", current_msg_text, none⟩]
  | some last =>
    if last.text ≠ current_msg_text then msgs ++ [⟨"user", current_msg_text, none⟩]
    else msgs

/-- Lines 104-174: `_process_technical_thread_message`.  On success the (user,
assistant) pair is appended to the user's history, the history is truncated to
10, and a category/action footer is appended to the reply; on failure the
apology is returned with the history untouched. -/
def _process_technical_thread_message (promptLoad : PromptLoad) (st : AgentSt)
    (user_id message : String) (thread_context : List ThreadMsg)
    (category : RequestCategory) (gen : Gen) : String × AgentSt :=
  match gen (threadMessages promptLoad user_id message thread_context category) with
  | .ok response =>
    let hist := (pyDictGet st user_id).getD [] ++
      [⟨"user", message, none⟩, ⟨"assistant", response.content, none⟩]
    let hist := if hist.length > 10 then hist.drop (hist.length - 10) else hist
    let category_info := "\n\n---\n📂 **Category:** " ++
      pyTitle (pyReplaceChar '_' ' ' category.value) ++
      "\n🎯 **Action:** " ++
      pyTitle (pyReplaceChar '_' ' ' (get_routing_info category).action)
    (response.content ++ category_info, pyDictSet st user_id hist)
  | .error _ =>
    ("Sorry, I encountered an error while processing your message. Please try again.", st)

/-- Lines 78-102: `process_thread_message`: categorize (regex + LLM over the same
backend), then either the AI-driven technical/engineering path or the canned
categorizer response. -/
def process_thread_message (promptLoad : PromptLoad) (st : AgentSt)
    (user_id message : String) (thread_context : List ThreadMsg) (gen : Gen) :
    String × AgentSt :=
  let category := categorize_request_async promptLoad message (some thread_context) (some gen)
  if category = .TECHNICAL_ISSUE ∨ category = .ENGINEERING_QUERY then
    _process_technical_thread_message promptLoad st user_id message thread_context category gen
  else
    (generate_response category message (some thread_context), st)

/-! ## Provider registry (`src/providers/__init__.py`) -/

/-- Modelled from the spec: a constructed backend instance (spec §4.1 exposes
`model_identifier` and `provider_name`); its behaviour is irrelevant to the
registry claims. -/
structure AIModel where
  provider : String
  model_name : String
deriving DecidableEq, Repr

/-- Python exceptions distinguished by the factory code. -/
inductive PyError where
  | valueError : String → PyError
  | otherError : String → PyError
deriving DecidableEq, Repr

/-- A provider configuration dict (string-valued entries suffice here). -/
abbrev ModelConfig := List (String × String)

/-- A provider class as stored in `ModelFactory._providers`: the
`issubclass(model_class, AIModelInterface)` test of line 45 is the
`isSubclassOfInterface` flag, and calling the class is `construct`
(an `Except.error` models a raised construction error). -/
structure ProviderClass where
  isSubclassOfInterface : Bool
  construct : ModelConfig → Except PyError AIModel

/-- Lines 24-35: `create_model`.  Unknown names fail with a `ValueError` listing
the registered providers; otherwise the construction runs and any error
propagates unchanged (the `except` of lines 33-35 only logs and re-raises). -/
def create_model (providers : List (String × ProviderClass)) (provider : String)
    (config : ModelConfig) : Except PyError AIModel :=
  match pyDictGet providers provider with
  | none =>
    .error (.valueError ("Unknown provider: " ++ provider ++ ". Available providers: " ++
      pyReprStrList (providers.map Prod.fst)))
  | some model_class => model_class.construct config

/-- Lines 42-49: `register_provider`: reject classes that do not inherit from
`AIModelInterface`, otherwise add or overwrite the registry entry. -/
def register_provider (providers : List (String × ProviderClass)) (name : String)
    (model_class : ProviderClass) : Except PyError (List (String × ProviderClass)) :=
  if !model_class.isSubclassOfInterface then
    .error (.valueError "Model class must inherit from AIModelInterface")
  else
    .ok (pyDictSet providers name model_class)

/-! ## Lemmas about insertion-ordered dictionaries -/

theorem pyDictGet_set_self {α β : Type} [DecidableEq α] (d : List (α × β)) (k : α) (v : β) :
    pyDictGet (pyDictSet d k v) k = some v := by
  induction d with
  | nil => simp [pyDictSet, pyDictGet]
  | cons e rest ih =>
    obtain ⟨a, b⟩ := e
    by_cases h : a = k <;> simp [pyDictSet, pyDictGet, h, ih]

theorem pyDictGet_set_ne {α β : Type} [DecidableEq α] (d : List (α × β)) (k k' : α) (v : β)
    (hne : k' ≠ k) : pyDictGet (pyDictSet d k v) k' = pyDictGet d k' := by
  have hkk : k ≠ k' := Ne.symm hne
  induction d with
  | nil => simp [pyDictSet, pyDictGet, hkk]
  | cons e rest ih =>
    obtain ⟨a, b⟩ := e
    by_cases h : a = k
    · subst h
      simp [pyDictSet, pyDictGet, hkk]
    · by_cases h' : a = k' <;> simp [pyDictSet, pyDictGet, h, h', hne, ih]

theorem keys_pyDictSet {α β : Type} [DecidableEq α] (d : List (α × β)) (k : α) (v : β) :
    (pyDictSet d k v).map Prod.fst =
      if k ∈ d.map Prod.fst then d.map Prod.fst else d.map Prod.fst ++ [k] := by
  induction d with
  | nil => simp [pyDictSet]
  | cons e rest ih =>
    obtain ⟨a, b⟩ := e
    by_cases h : a = k
    · subst h; simp [pyDictSet]
    · by_cases hmem : k ∈ rest.map Prod.fst <;>
        simp [pyDictSet, h, Ne.symm h, hmem, ih]

theorem mem_keys_pyDictSet {α β : Type} [DecidableEq α] (d : List (α × β)) (k : α) (v : β) :
    k ∈ (pyDictSet d k v).map Prod.fst := by
  rw [keys_pyDictSet]
  by_cases h : k ∈ d.map Prod.fst <;> simp [h]

theorem mem_keys_pyDictSet_of_mem {α β : Type} [DecidableEq α] (d : List (α × β))
    (k k' : α) (v : β) (h : k' ∈ d.map Prod.fst) :
    k' ∈ (pyDictSet d k v).map Prod.fst := by
  rw [keys_pyDictSet]
  by_cases hk : k ∈ d.map Prod.fst <;> simp [hk, h]

theorem mem_keys_pyDictSet_elim {α β : Type} [DecidableEq α] (d : List (α × β))
    (k k' : α) (v : β) (h : k' ∈ (pyDictSet d k v).map Prod.fst) :
    k' ∈ d.map Prod.fst ∨ k' = k := by
  rw [keys_pyDictSet] at h
  by_cases hk : k ∈ d.map Prod.fst
  · rw [if_pos hk] at h
    exact Or.inl h
  · rw [if_neg hk] at h
    rcases List.mem_append.mp h with h1 | h1
    · exact Or.inl h1
    · exact Or.inr (by simpa using h1)

theorem nodup_keys_pyDictSet {α β : Type} [DecidableEq α] (d : List (α × β)) (k : α) (v : β)
    (h : (d.map Prod.fst).Nodup) : ((pyDictSet d k v).map Prod.fst).Nodup := by
  rw [keys_pyDictSet]
  by_cases hk : k ∈ d.map Prod.fst
  · rw [if_pos hk]; exact h
  · rw [if_neg hk]
    refine List.Nodup.append h (List.nodup_singleton k) ?_
    intro a ha hak
    rw [List.mem_singleton] at hak
    subst hak
    exact hk ha

theorem pyDictGet_none_iff {α β : Type} [DecidableEq α] (d : List (α × β)) (k : α) :
    pyDictGet d k = none ↔ k ∉ d.map Prod.fst := by
  induction d with
  | nil => simp [pyDictGet]
  | cons e rest ih =>
    obtain ⟨a, b⟩ := e
    by_cases h : a = k
    · simp [pyDictGet, h]
    · simp [pyDictGet, h, ih, Ne.symm h]

theorem pyDictGet_some_mem {α β : Type} [DecidableEq α] (d : List (α × β)) (k : α) (v : β)
    (h : pyDictGet d k = some v) : (k, v) ∈ d := by
  induction d with
  | nil => simp [pyDictGet] at h
  | cons e rest ih =>
    obtain ⟨a, b⟩ := e
    by_cases ha : a = k
    · subst ha; simp [pyDictGet] at h; simp [h]
    · simp [pyDictGet, ha] at h
      exact List.mem_cons_of_mem _ (ih h)

theorem pyDictGet_of_mem {α β : Type} [DecidableEq α] (d : List (α × β)) (k : α) (v : β)
    (hnd : (d.map Prod.fst).Nodup) (h : (k, v) ∈ d) : pyDictGet d k = some v := by
  induction d with
  | nil => simp at h
  | cons e rest ih =>
    obtain ⟨a, b⟩ := e
    simp only [List.map_cons, List.nodup_cons] at hnd
    rcases List.mem_cons.mp h with h1 | h1
    · cases h1
      simp [pyDictGet]
    · have hak : a ≠ k := by
        rintro rfl
        exact hnd.1 (List.mem_map.mpr ⟨(a, v), h1, rfl⟩)
      simp [pyDictGet, hak, ih hnd.2 h1]

/-! ## Characterization of the score folds -/

theorem textFold_get_notin (t : List Char) (tbl : List (RequestCategory × List Rx))
    (d : ScoreDict) (c : RequestCategory) (h : c ∉ tbl.map Prod.fst) :
    pyDictGet (textFold t tbl d) c = pyDictGet d c := by
  induction tbl generalizing d with
  | nil => rfl
  | cons cp rest ih =>
    simp only [List.map_cons, List.mem_cons, not_or] at h
    rw [textFold]
    rw [ih _ h.2]
    by_cases hs : 0 < patternScore t cp.2
    · rw [if_pos hs, pyDictGet_set_ne _ _ _ _ h.1]
    · rw [if_neg hs]

theorem textFold_get_in (t : List Char) (tbl : List (RequestCategory × List Rx))
    (d : ScoreDict) (c : RequestCategory) (ps : List Rx)
    (hnd : (tbl.map Prod.fst).Nodup) (hmem : (c, ps) ∈ tbl) :
    pyDictGet (textFold t tbl d) c =
      if 0 < patternScore t ps then some (2 * patternScore t ps) else pyDictGet d c := by
  induction tbl generalizing d with
  | nil => simp at hmem
  | cons cp rest ih =>
    simp only [List.map_cons, List.nodup_cons] at hnd
    rcases List.mem_cons.mp hmem with h1 | h1
    · cases h1
      rw [textFold, textFold_get_notin t rest _ c hnd.1]
      by_cases hs : 0 < patternScore t ps
      · rw [if_pos hs, if_pos hs, pyDictGet_set_self]
      · rw [if_neg hs, if_neg hs]
    · have hc : c ≠ cp.1 := by
        intro he
        exact hnd.1 (he ▸ List.mem_map.mpr ⟨(c, ps), h1, rfl⟩)
      rw [textFold, ih _ hnd.2 h1]
      by_cases hs : 0 < patternScore t cp.2
      · rw [if_pos hs]
        by_cases hs2 : 0 < patternScore t ps
        · rw [if_pos hs2, if_pos hs2]
        · rw [if_neg hs2, if_neg hs2, pyDictGet_set_ne _ _ _ _ hc]
      · rw [if_neg hs]

theorem textFold_keys_elim (t : List Char) (tbl : List (RequestCategory × List Rx))
    (d : ScoreDict) (c : RequestCategory) (h : c ∈ (textFold t tbl d).map Prod.fst) :
    c ∈ d.map Prod.fst ∨ c ∈ tbl.map Prod.fst := by
  induction tbl generalizing d with
  | nil => exact Or.inl h
  | cons cp rest ih =>
    rw [textFold] at h
    rcases ih _ h with h1 | h1
    · by_cases hs : 0 < patternScore t cp.2
      · rw [if_pos hs] at h1
        rcases mem_keys_pyDictSet_elim _ _ _ _ h1 with h2 | h2
        · exact Or.inl h2
        · exact Or.inr (by simp [h2])
      · rw [if_neg hs] at h1
        exact Or.inl h1
    · exact Or.inr (by simp [h1])

theorem textFold_nodup (t : List Char) (tbl : List (RequestCategory × List Rx))
    (d : ScoreDict) (h : (d.map Prod.fst).Nodup) :
    ((textFold t tbl d).map Prod.fst).Nodup := by
  induction tbl generalizing d with
  | nil => exact h
  | cons cp rest ih =>
    rw [textFold]
    refine ih _ ?_
    by_cases hs : 0 < patternScore t cp.2
    · rw [if_pos hs]; exact nodup_keys_pyDictSet _ _ _ h
    · rw [if_neg hs]; exact h

theorem textFold_all_zero (t : List Char) (tbl : List (RequestCategory × List Rx))
    (d : ScoreDict) (h : ∀ cp ∈ tbl, patternScore t cp.2 = 0) :
    textFold t tbl d = d := by
  induction tbl with
  | nil => rfl
  | cons cp rest ih =>
    rw [textFold, if_neg (by simp [h cp (by simp)])]
    exact ih (fun cp2 hcp2 => h cp2 (List.mem_cons_of_mem _ hcp2))

theorem patsFold_get_other (mt : List Char) (c : RequestCategory) (ps : List Rx)
    (d : ScoreDict) (k : RequestCategory) (hk : k ≠ c) :
    pyDictGet (patsFold mt c ps d) k = pyDictGet d k := by
  induction ps generalizing d with
  | nil => rfl
  | cons p rest ih => rw [patsFold, ih, pyDictGet_set_ne _ _ _ _ hk]

theorem patsFold_get (mt : List Char) (c : RequestCategory) (ps : List Rx)
    (d : ScoreDict) (hne : ps ≠ []) :
    pyDictGet (patsFold mt c ps d) c =
      some ((pyDictGet d c).getD 0 + patternScore mt ps) := by
  induction ps generalizing d with
  | nil => exact absurd rfl hne
  | cons p rest ih =>
    rw [patsFold]
    rcases rest with _ | ⟨p2, rest2⟩
    · rw [patsFold, pyDictGet_set_self]
      simp [patternScore]
    · rw [ih _ (by simp), pyDictGet_set_self]
      simp only [Option.getD_some, Option.some.injEq, patternScore]
      omega

theorem patsFold_keys_elim (mt : List Char) (c : RequestCategory) (ps : List Rx)
    (d : ScoreDict) (k : RequestCategory) (h : k ∈ (patsFold mt c ps d).map Prod.fst) :
    k ∈ d.map Prod.fst ∨ k = c := by
  induction ps generalizing d with
  | nil => exact Or.inl h
  | cons p rest ih =>
    rw [patsFold] at h
    rcases ih _ h with h1 | h1
    · exact mem_keys_pyDictSet_elim _ _ _ _ h1
    · exact Or.inr h1

theorem patsFold_keys (mt : List Char) (c : RequestCategory) (ps : List Rx)
    (d : ScoreDict) (hne : ps ≠ []) :
    (patsFold mt c ps d).map Prod.fst =
      if c ∈ d.map Prod.fst then d.map Prod.fst else d.map Prod.fst ++ [c] := by
  induction ps generalizing d with
  | nil => exact absurd rfl hne
  | cons p rest ih =>
    rw [patsFold]
    rcases rest with _ | ⟨p2, rest2⟩
    · rw [patsFold, keys_pyDictSet]
    · rw [ih _ (by simp), if_pos (mem_keys_pyDictSet _ _ _), keys_pyDictSet]

theorem patsFold_nodup (mt : List Char) (c : RequestCategory) (ps : List Rx)
    (d : ScoreDict) (h : (d.map Prod.fst).Nodup) :
    ((patsFold mt c ps d).map Prod.fst).Nodup := by
  induction ps generalizing d with
  | nil => exact h
  | cons p rest ih => rw [patsFold]; exact ih _ (nodup_keys_pyDictSet _ _ _ h)

theorem msgFold_get_notin (mt : List Char) (tbl : List (RequestCategory × List Rx))
    (d : ScoreDict) (c : RequestCategory) (h : c ∉ tbl.map Prod.fst) :
    pyDictGet (msgFold mt tbl d) c = pyDictGet d c := by
  induction tbl generalizing d with
  | nil => rfl
  | cons cp rest ih =>
    simp only [List.map_cons, List.mem_cons, not_or] at h
    rw [msgFold, ih _ h.2, patsFold_get_other _ _ _ _ _ h.1]

theorem msgFold_get (mt : List Char) (tbl : List (RequestCategory × List Rx))
    (d : ScoreDict) (c : RequestCategory) (ps : List Rx)
    (hnd : (tbl.map Prod.fst).Nodup) (hmem : (c, ps) ∈ tbl) (hne : ps ≠ []) :
    pyDictGet (msgFold mt tbl d) c =
      some ((pyDictGet d c).getD 0 + patternScore mt ps) := by
  induction tbl generalizing d with
  | nil => simp at hmem
  | cons cp rest ih =>
    simp only [List.map_cons, List.nodup_cons] at hnd
    rcases List.mem_cons.mp hmem with h1 | h1
    · cases h1
      rw [msgFold, msgFold_get_notin _ _ _ _ hnd.1, patsFold_get _ _ _ _ hne]
    · have hc : c ≠ cp.1 := by
        intro he
        exact hnd.1 (he ▸ List.mem_map.mpr ⟨(c, ps), h1, rfl⟩)
      rw [msgFold, ih _ hnd.2 h1, patsFold_get_other _ _ _ _ _ hc]

theorem msgFold_keys_elim (mt : List Char) (tbl : List (RequestCategory × List Rx))
    (d : ScoreDict) (c : RequestCategory) (h : c ∈ (msgFold mt tbl d).map Prod.fst) :
    c ∈ d.map Prod.fst ∨ c ∈ tbl.map Prod.fst := by
  induction tbl generalizing d with
  | nil => exact Or.inl h
  | cons cp rest ih =>
    rw [msgFold] at h
    rcases ih _ h with h1 | h1
    · rcases patsFold_keys_elim _ _ _ _ _ h1 with h2 | h2
      · exact Or.inl h2
      · exact Or.inr (by simp [h2])
    · exact Or.inr (by simp [h1])

theorem msgFold_nodup (mt : List Char) (tbl : List (RequestCategory × List Rx))
    (d : ScoreDict) (h : (d.map Prod.fst).Nodup) :
    ((msgFold mt tbl d).map Prod.fst).Nodup := by
  induction tbl generalizing d with
  | nil => exact h
  | cons cp rest ih => rw [msgFold]; exact ih _ (patsFold_nodup _ _ _ _ h)

theorem msgFold_keys_disjoint (mt : List Char) (tbl : List (RequestCategory × List Rx))
    (d : ScoreDict) (hps : ∀ cp ∈ tbl, cp.2 ≠ [])
    (hnd : (d.map Prod.fst ++ tbl.map Prod.fst).Nodup) :
    (msgFold mt tbl d).map Prod.fst = d.map Prod.fst ++ tbl.map Prod.fst := by
  induction tbl generalizing d with
  | nil => simp [msgFold]
  | cons cp rest ih =>
    have hcp : cp.1 ∉ d.map Prod.fst := by
      intro hin
      exact (List.disjoint_of_nodup_append hnd) hin (by simp)
    have hkeys : (patsFold mt cp.1 cp.2 d).map Prod.fst = d.map Prod.fst ++ [cp.1] := by
      rw [patsFold_keys _ _ _ _ (hps cp (by simp)), if_neg hcp]
    have hnd2 : ((patsFold mt cp.1 cp.2 d).map Prod.fst ++ rest.map Prod.fst).Nodup := by
      rw [hkeys, List.append_assoc]
      simpa using hnd
    rw [msgFold, ih _ (fun cp2 h2 => hps cp2 (List.mem_cons_of_mem _ h2)) hnd2, hkeys]
    simp

theorem msgFold_keys_stable (mt : List Char) (tbl : List (RequestCategory × List Rx))
    (d : ScoreDict) (hsub : ∀ c ∈ tbl.map Prod.fst, c ∈ d.map Prod.fst)
    (hps : ∀ cp ∈ tbl, cp.2 ≠ []) :
    (msgFold mt tbl d).map Prod.fst = d.map Prod.fst := by
  induction tbl generalizing d with
  | nil => rfl
  | cons cp rest ih =>
    have hcp : cp.1 ∈ d.map Prod.fst := hsub cp.1 (by simp)
    have hkeys : (patsFold mt cp.1 cp.2 d).map Prod.fst = d.map Prod.fst := by
      rw [patsFold_keys _ _ _ _ (hps cp (by simp)), if_pos hcp]
    rw [msgFold, ih _ ?_ (fun cp2 h2 => hps cp2 (List.mem_cons_of_mem _ h2)), hkeys]
    intro c hc
    rw [hkeys]
    exact hsub c (by simp [hc])

theorem ctxFold_get (tbl : List (RequestCategory × List Rx)) (ctx : List ThreadMsg)
    (m : ThreadMsg) (d : ScoreDict) (c : RequestCategory) (ps : List Rx)
    (hnd : (tbl.map Prod.fst).Nodup) (hmem : (c, ps) ∈ tbl) (hne : ps ≠ []) :
    pyDictGet (ctxFold tbl (m :: ctx) d) c =
      some ((pyDictGet d c).getD 0 + threadScore ps (m :: ctx)) := by
  induction ctx generalizing m d with
  | nil =>
    rw [ctxFold, ctxFold, msgFold_get _ _ _ _ _ hnd hmem hne]
    simp [threadScore]
  | cons m2 ms ih =>
    rw [ctxFold, ih m2 _, msgFold_get _ _ _ _ _ hnd hmem hne]
    simp only [Option.getD_some, Option.some.injEq, threadScore]
    omega

theorem ctxFold_get_notin (tbl : List (RequestCategory × List Rx)) (ctx : List ThreadMsg)
    (d : ScoreDict) (c : RequestCategory) (h : c ∉ tbl.map Prod.fst) :
    pyDictGet (ctxFold tbl ctx d) c = pyDictGet d c := by
  induction ctx generalizing d with
  | nil => rfl
  | cons m ms ih => rw [ctxFold, ih _, msgFold_get_notin _ _ _ _ h]

theorem ctxFold_keys_elim (tbl : List (RequestCategory × List Rx)) (ctx : List ThreadMsg)
    (d : ScoreDict) (c : RequestCategory) (h : c ∈ (ctxFold tbl ctx d).map Prod.fst) :
    c ∈ d.map Prod.fst ∨ c ∈ tbl.map Prod.fst := by
  induction ctx generalizing d with
  | nil => exact Or.inl h
  | cons m ms ih =>
    rw [ctxFold] at h
    rcases ih _ h with h1 | h1
    · exact msgFold_keys_elim _ _ _ _ h1
    · exact Or.inr h1

theorem ctxFold_nodup (tbl : List (RequestCategory × List Rx)) (ctx : List ThreadMsg)
    (d : ScoreDict) (h : (d.map Prod.fst).Nodup) :
    ((ctxFold tbl ctx d).map Prod.fst).Nodup := by
  induction ctx generalizing d with
  | nil => exact h
  | cons m ms ih => rw [ctxFold]; exact ih _ (msgFold_nodup _ _ _ h)

theorem ctxFold_keys_stable (tbl : List (RequestCategory × List Rx)) (ctx : List ThreadMsg)
    (d : ScoreDict) (hps : ∀ cp ∈ tbl, cp.2 ≠ [])
    (hd : d.map Prod.fst = tbl.map Prod.fst) :
    (ctxFold tbl ctx d).map Prod.fst = tbl.map Prod.fst := by
  induction ctx generalizing d with
  | nil => exact hd
  | cons m ms ih =>
    rw [ctxFold]
    refine ih _ ?_
    rw [msgFold_keys_stable _ _ _ (fun c hc => by rw [hd]; exact hc) hps, hd]

theorem ctxFold_keys_from_nil (tbl : List (RequestCategory × List Rx))
    (ctx : List ThreadMsg) (m : ThreadMsg)
    (hnd : (tbl.map Prod.fst).Nodup) (hps : ∀ cp ∈ tbl, cp.2 ≠ []) :
    (ctxFold tbl (m :: ctx) []).map Prod.fst = tbl.map Prod.fst := by
  rw [ctxFold]
  refine ctxFold_keys_stable tbl ctx _ hps ?_
  have h1 := msgFold_keys_disjoint (pyLower m.text).data tbl [] hps (by simpa using hnd)
  simpa using h1

/-! maximum lemmas -/

theorem pyMaxByVal_mem (best : RequestCategory × Nat) (l : List (RequestCategory × Nat)) :
    pyMaxByVal best l ∈ best :: l := by
  induction l generalizing best with
  | nil => simp [pyMaxByVal]
  | cons e rest ih =>
    rw [pyMaxByVal]
    by_cases hc : e.2 > best.2
    · rw [if_pos hc]
      rcases List.mem_cons.mp (ih e) with h | h
      · rw [h]; simp
      · simp [h]
    · rw [if_neg hc]
      rcases List.mem_cons.mp (ih best) with h | h
      · rw [h]; simp
      · simp [h]

theorem pyMaxByVal_of_le (best : RequestCategory × Nat) (l : List (RequestCategory × Nat))
    (h : ∀ e ∈ l, ¬ e.2 > best.2) : pyMaxByVal best l = best := by
  induction l with
  | nil => rfl
  | cons e rest ih =>
    rw [pyMaxByVal, if_neg (h e (by simp))]
    exact ih (fun e2 h2 => h e2 (List.mem_cons_of_mem _ h2))

theorem pyMaxByVal_strict (best : RequestCategory × Nat) (l : List (RequestCategory × Nat))
    (c : RequestCategory) (v : Nat)
    (hlt : ∀ e ∈ best :: l, e.1 ≠ c → e.2 < v)
    (heq : ∀ e ∈ best :: l, e.1 = c → e.2 = v)
    (hmem : (c, v) ∈ best :: l) : (pyMaxByVal best l).1 = c := by
  induction l generalizing best with
  | nil =>
    rw [pyMaxByVal]
    rcases List.mem_singleton.mp hmem with h
    rw [← h]
  | cons e rest ih =>
    rw [pyMaxByVal]
    set best' := if e.2 > best.2 then e else best with hbest'
    have hbmem : best' = e ∨ best' = best := by
      by_cases hc : e.2 > best.2 <;> simp [hbest', hc]
    have hin : ∀ x, (x = best' ∨ x ∈ rest) → x ∈ best :: e :: rest := by
      intro x hx
      rcases hx with hx | hx
      · rcases hbmem with hb | hb <;> simp [hx, hb]
      · simp [hx]
    refine ih best' ?_ ?_ ?_
    · intro x hx
      exact hlt x (hin x (List.mem_cons.mp hx))
    · intro x hx
      exact heq x (hin x (List.mem_cons.mp hx))
    · rcases List.mem_cons.mp hmem with h1 | h1
      · by_cases hc : e.2 > best.2
        · by_cases hec : e.1 = c
          · have : e.2 = v := heq e (by simp) hec
            have hb : best.2 = v := by rw [← h1]
            omega
          · have : e.2 < v := hlt e (by simp) hec
            have hb : best.2 = v := by rw [← h1]
            omega
        · rw [hbest', if_neg hc]
          simp [← h1]
      · rcases List.mem_cons.mp h1 with h2 | h2
        · by_cases hc : e.2 > best.2
          · rw [hbest', if_pos hc]
            simp [← h2]
          · by_cases hbc : best.1 = c
            · have hbv : best.2 = v := heq best (by simp) hbc
              have hb2 : best = (c, v) := by
                rcases best with ⟨b1, b2⟩
                simp_all
              rw [hbest', if_neg hc, hb2]
              simp
            · have : best.2 < v := hlt best (by simp) hbc
              have hev : e.2 = v := by rw [← h2]
              omega
        · simp [h2]

/-! ## Characterization of `regexScores` at the concrete table -/

theorem category_patterns_nodup : (CATEGORY_PATTERNS.map Prod.fst).Nodup := by decide

theorem category_patterns_nonempty : ∀ cp ∈ CATEGORY_PATTERNS, cp.2 ≠ [] := by decide

theorem patternsOf_table : ∀ cp ∈ CATEGORY_PATTERNS, patternsOf cp.1 = cp.2 := by decide

theorem unknown_not_in_table : RequestCategory.UNKNOWN ∉ CATEGORY_PATTERNS.map Prod.fst := by
  decide

theorem patternsOf_notin (c : RequestCategory) (h : c ∉ CATEGORY_PATTERNS.map Prod.fst) :
    patternsOf c = [] := by
  rcases c <;> first
    | rfl
    | exact absurd (by decide) h

theorem threadScore_nil (ctx : List ThreadMsg) : threadScore [] ctx = 0 := by
  induction ctx with
  | nil => rfl
  | cons m ms ih => simp [threadScore, patternScore, ih]

theorem regexScores_get_in_empty (text : String) (ctx : Option (List ThreadMsg))
    (c : RequestCategory) (ps : List Rx) (hmem : (c, ps) ∈ CATEGORY_PATTERNS)
    (hctx : ctx = none ∨ ctx = some []) :
    pyDictGet (regexScores text ctx) c =
      if 0 < aggScore text ctx c then some (aggScore text ctx c) else none := by
  have hps : patternsOf c = ps := patternsOf_table (c, ps) hmem
  have hagg : aggScore text ctx c = 2 * patternScore (pyLower text).data ps := by
    rcases hctx with h | h <;> simp [aggScore, h, hps]
  have hscores : regexScores text ctx = textFold (pyLower text).data CATEGORY_PATTERNS [] := by
    rcases hctx with h | h <;> simp [regexScores, h]
  rw [hscores, hagg, textFold_get_in _ _ _ _ _ category_patterns_nodup hmem]
  by_cases hs : 0 < patternScore (pyLower text).data ps
  · rw [if_pos hs, if_pos (by omega)]
  · rw [if_neg hs, if_neg (by omega)]
    rfl

theorem regexScores_get_in_cons (text : String) (m : ThreadMsg) (ms : List ThreadMsg)
    (c : RequestCategory) (ps : List Rx) (hmem : (c, ps) ∈ CATEGORY_PATTERNS) :
    pyDictGet (regexScores text (some (m :: ms))) c =
      some (aggScore text (some (m :: ms)) c) := by
  have hps : patternsOf c = ps := patternsOf_table (c, ps) hmem
  have hne : ps ≠ [] := category_patterns_nonempty (c, ps) hmem
  rw [show regexScores text (some (m :: ms)) =
      ctxFold CATEGORY_PATTERNS (m :: ms) (textFold (pyLower text).data CATEGORY_PATTERNS [])
    from rfl]
  rw [ctxFold_get _ _ _ _ _ _ category_patterns_nodup hmem hne]
  rw [textFold_get_in _ _ _ _ _ category_patterns_nodup hmem]
  have hgetd : (if 0 < patternScore (pyLower text).data ps
      then some (2 * patternScore (pyLower text).data ps)
      else pyDictGet ([] : ScoreDict) c).getD 0 =
      2 * patternScore (pyLower text).data ps := by
    by_cases hs : 0 < patternScore (pyLower text).data ps
    · rw [if_pos hs]; rfl
    · rw [if_neg hs]
      simp [pyDictGet]
      omega
  rw [hgetd]
  simp [aggScore, hps]

theorem regexScores_get_notin (text : String) (ctx : Option (List ThreadMsg))
    (c : RequestCategory) (hc : c ∉ CATEGORY_PATTERNS.map Prod.fst) :
    pyDictGet (regexScores text ctx) c = none ∧ aggScore text ctx c = 0 := by
  have hps : patternsOf c = [] := patternsOf_notin c hc
  constructor
  · rcases ctx with _ | ⟨_ | ⟨m, ms⟩⟩
    · rw [show regexScores text none =
          textFold (pyLower text).data CATEGORY_PATTERNS [] from rfl]
      rw [textFold_get_notin _ _ _ _ hc]
      rfl
    · rw [show regexScores text (some []) =
          textFold (pyLower text).data CATEGORY_PATTERNS [] from rfl]
      rw [textFold_get_notin _ _ _ _ hc]
      rfl
    · rw [show regexScores text (some (m :: ms)) =
          ctxFold CATEGORY_PATTERNS (m :: ms) (textFold (pyLower text).data CATEGORY_PATTERNS [])
        from rfl]
      rw [ctxFold_get_notin _ _ _ _ hc, textFold_get_notin _ _ _ _ hc]
      rfl
  · rcases ctx with _ | ⟨_ | ⟨m, ms⟩⟩ <;>
      simp [aggScore, hps, patternScore, threadScore_nil]

theorem regexScores_keys_sub (text : String) (ctx : Option (List ThreadMsg))
    (c : RequestCategory) (h : c ∈ (regexScores text ctx).map Prod.fst) :
    c ∈ CATEGORY_PATTERNS.map Prod.fst := by
  rcases ctx with _ | ⟨_ | ⟨m, ms⟩⟩
  · rcases textFold_keys_elim _ _ _ _ h with h1 | h1
    · simp at h1
    · exact h1
  · rcases textFold_keys_elim _ _ _ _ h with h1 | h1
    · simp at h1
    · exact h1
  · rcases ctxFold_keys_elim _ _ _ _
        (by exact h) with h1 | h1
    · rcases textFold_keys_elim _ _ _ _ h1 with h2 | h2
      · simp at h2
      · exact h2
    · exact h1

theorem regexScores_nodup (text : String) (ctx : Option (List ThreadMsg)) :
    ((regexScores text ctx).map Prod.fst).Nodup := by
  rcases ctx with _ | ⟨_ | ⟨m, ms⟩⟩
  · exact textFold_nodup _ _ _ (by simp)
  · exact textFold_nodup _ _ _ (by simp)
  · exact ctxFold_nodup _ _ _ (textFold_nodup _ _ _ (by simp))

theorem regexScores_entry_val (text : String) (ctx : Option (List ThreadMsg))
    (e : RequestCategory × Nat) (he : e ∈ regexScores text ctx) :
    e.2 = aggScore text ctx e.1 := by
  have hkey : e.1 ∈ (regexScores text ctx).map Prod.fst :=
    List.mem_map.mpr ⟨e, he, rfl⟩
  have htbl : e.1 ∈ CATEGORY_PATTERNS.map Prod.fst := regexScores_keys_sub _ _ _ hkey
  obtain ⟨cp, hcp, hfst⟩ := List.mem_map.mp htbl
  have hget : pyDictGet (regexScores text ctx) e.1 = some e.2 :=
    pyDictGet_of_mem _ _ _ (regexScores_nodup text ctx) (by rcases e with ⟨a, b⟩; exact he)
  have hmem2 : (e.1, cp.2) ∈ CATEGORY_PATTERNS := by
    rcases cp with ⟨a, ps⟩
    cases hfst
    exact hcp
  rcases ctx with _ | ⟨_ | ⟨m, ms⟩⟩
  · have := regexScores_get_in_empty text none e.1 cp.2 hmem2 (Or.inl rfl)
    rw [hget] at this
    by_cases hagg : 0 < aggScore text none e.1
    · rw [if_pos hagg] at this
      exact Option.some.injEq _ _ ▸ this
    · rw [if_neg hagg] at this
      exact absurd this (by simp)
  · have := regexScores_get_in_empty text (some []) e.1 cp.2 hmem2 (Or.inr rfl)
    rw [hget] at this
    by_cases hagg : 0 < aggScore text (some []) e.1
    · rw [if_pos hagg] at this
      exact Option.some.injEq _ _ ▸ this
    · rw [if_neg hagg] at this
      exact absurd this (by simp)
  · have := regexScores_get_in_cons text m ms e.1 cp.2 hmem2
    rw [hget] at this
    exact Option.some.injEq _ _ ▸ this

/-! ## Claim theorems: the regex categorizer (C1, C10) -/

/-- Claim C10: for every input text and every non-empty thread context, the
regex-only categorizer returns some pattern-table category and never returns
`UNKNOWN`, even when no pattern matches anywhere (the thread-context scan enters
a score entry, possibly zero, for every category). -/
theorem regex_nonempty_context_never_unknown (text : String) (m : ThreadMsg)
    (ms : List ThreadMsg) :
    _categorize_with_regex text (some (m :: ms)) ∈ CATEGORY_PATTERNS.map Prod.fst
    ∧ _categorize_with_regex text (some (m :: ms)) ≠ .UNKNOWN := by
  have hTI : pyDictGet (regexScores text (some (m :: ms))) .TECHNICAL_ISSUE =
      some (aggScore text (some (m :: ms)) .TECHNICAL_ISSUE) :=
    regexScores_get_in_cons text m ms _ tiPatterns (by decide)
  rcases hd : regexScores text (some (m :: ms)) with _ | ⟨e, rest⟩
  · rw [hd] at hTI
    simp [pyDictGet] at hTI
  · have hres : _categorize_with_regex text (some (m :: ms)) = (pyMaxByVal e rest).1 := by
      simp only [_categorize_with_regex, hd]
    have hmem := pyMaxByVal_mem e rest
    have hkey : (pyMaxByVal e rest).1 ∈ (regexScores text (some (m :: ms))).map Prod.fst := by
      rw [hd]
      exact List.mem_map.mpr ⟨_, hmem, rfl⟩
    have htbl := regexScores_keys_sub _ _ _ hkey
    refine ⟨hres ▸ htbl, ?_⟩
    rw [hres]
    intro he
    rw [he] at htbl
    exact unknown_not_in_table htbl

/-- Claim C1, corrected form.  If every pattern-table category has aggregate
score 0, the regex-only categorizer returns `UNKNOWN` when the thread context is
absent or empty but `TECHNICAL_ISSUE` (the first table category) when the
context is non-empty; whenever one category's aggregate score is strictly
greater than every other's, that category is returned. -/
theorem regex_categorizer_amended (text : String) (ctx : Option (List ThreadMsg)) :
    ((∀ cp ∈ CATEGORY_PATTERNS, aggScore text ctx cp.1 = 0) →
        ((ctx = none ∨ ctx = some []) → categorize_request text ctx = .UNKNOWN)
      ∧ (∀ m ms, ctx = some (m :: ms) → categorize_request text ctx = .TECHNICAL_ISSUE))
  ∧ (∀ c ps, (c, ps) ∈ CATEGORY_PATTERNS →
      (∀ cp ∈ CATEGORY_PATTERNS, cp.1 ≠ c → aggScore text ctx cp.1 < aggScore text ctx c) →
      categorize_request text ctx = c) := by
  constructor
  · intro hzero
    have hts : ∀ cp ∈ CATEGORY_PATTERNS, patternScore (pyLower text).data cp.2 = 0 := by
      intro cp hcp
      have hagg := hzero cp hcp
      have hps := patternsOf_table cp hcp
      rw [← hps]
      rcases ctx with _ | ⟨_ | ⟨m, ms⟩⟩ <;> simp [aggScore] at hagg <;> omega
    constructor
    · intro hctx
      have hnil : regexScores text ctx = [] := by
        rcases hctx with h | h <;>
          · subst h
            simpa [regexScores] using textFold_all_zero (pyLower text).data CATEGORY_PATTERNS [] hts
      simp [categorize_request, _categorize_with_regex, hnil]
    · intro m ms hctx
      subst hctx
      have htf : textFold (pyLower text).data CATEGORY_PATTERNS [] = [] :=
        textFold_all_zero (pyLower text).data CATEGORY_PATTERNS [] hts
      have hsc : regexScores text (some (m :: ms)) =
          ctxFold CATEGORY_PATTERNS (m :: ms) [] := by
        simp [regexScores, htf]
      have hkeys : (regexScores text (some (m :: ms))).map Prod.fst =
          CATEGORY_PATTERNS.map Prod.fst := by
        rw [hsc]
        exact ctxFold_keys_from_nil _ _ _ category_patterns_nodup category_patterns_nonempty
      rcases hd : regexScores text (some (m :: ms)) with _ | ⟨e, rest⟩
      · rw [hd] at hkeys
        exact absurd hkeys.symm (by decide)
      · have hvals : ∀ x ∈ regexScores text (some (m :: ms)), x.2 = 0 := by
          intro x hx
          have hv := regexScores_entry_val text (some (m :: ms)) x hx
          have hxk : x.1 ∈ CATEGORY_PATTERNS.map Prod.fst :=
            regexScores_keys_sub _ _ _ (List.mem_map.mpr ⟨x, hx, rfl⟩)
          obtain ⟨cp, hcp, hfst⟩ := List.mem_map.mp hxk
          rw [hv, ← hfst]
          exact hzero cp hcp
        have he1 : e.1 = .TECHNICAL_ISSUE := by
          rw [hd] at hkeys
          have : e.1 :: rest.map Prod.fst = CATEGORY_PATTERNS.map Prod.fst := by
            simpa using hkeys
          have hh := congrArg List.head? this
          simpa [CATEGORY_PATTERNS] using hh
        have hmax : pyMaxByVal e rest = e := by
          refine pyMaxByVal_of_le e rest ?_
          intro x hx
          have h1 : x.2 = 0 := hvals x (by rw [hd]; exact List.mem_cons_of_mem _ hx)
          have h2 : e.2 = 0 := hvals e (by rw [hd]; exact List.mem_cons_self _ _)
          omega
        simp [categorize_request, _categorize_with_regex, hd, hmax, he1]
  · intro c ps hmem hstrict
    have hpos : 0 < aggScore text ctx c := by
      have hex : ∃ cp ∈ CATEGORY_PATTERNS, cp.1 ≠ c := by
        by_cases hTI : c = RequestCategory.TECHNICAL_ISSUE
        · refine ⟨(.FYI, fyiPatterns), by decide, ?_⟩
          simp [hTI]
        · refine ⟨(.TECHNICAL_ISSUE, tiPatterns), by decide, ?_⟩
          exact Ne.symm hTI
      obtain ⟨cp0, hcp0, hne0⟩ := hex
      have := hstrict cp0 hcp0 hne0
      omega
    have hget : pyDictGet (regexScores text ctx) c = some (aggScore text ctx c) := by
      rcases ctx with _ | ⟨_ | ⟨m, ms⟩⟩
      · rw [regexScores_get_in_empty text none c ps hmem (Or.inl rfl), if_pos hpos]
      · rw [regexScores_get_in_empty text (some []) c ps hmem (Or.inr rfl), if_pos hpos]
      · exact regexScores_get_in_cons text m ms c ps hmem
    have hmem2 : (c, aggScore text ctx c) ∈ regexScores text ctx :=
      pyDictGet_some_mem _ _ _ hget
    rcases hd : regexScores text ctx with _ | ⟨e, rest⟩
    · rw [hd] at hmem2
      simp at hmem2
    · rw [hd] at hmem2
      have hstrict2 : ∀ x ∈ e :: rest, x.1 ≠ c → x.2 < aggScore text ctx c := by
        intro x hx hxc
        have hv := regexScores_entry_val text ctx x (by rw [hd]; exact hx)
        have hxk : x.1 ∈ CATEGORY_PATTERNS.map Prod.fst :=
          regexScores_keys_sub _ _ _ (List.mem_map.mpr ⟨x, by rw [hd]; exact hx, rfl⟩)
        obtain ⟨cp, hcp, hfst⟩ := List.mem_map.mp hxk
        rw [hv, ← hfst]
        exact hstrict cp hcp (by rw [hfst]; exact hxc)
      have heq2 : ∀ x ∈ e :: rest, x.1 = c → x.2 = aggScore text ctx c := by
        intro x hx hxc
        have hv := regexScores_entry_val text ctx x (by rw [hd]; exact hx)
        rw [hv, hxc]
      have := pyMaxByVal_strict e rest c (aggScore text ctx c) hstrict2 heq2 hmem2
      simp [categorize_request, _categorize_with_regex, hd, this]

/-- Claim C1 counterexample: with the empty input and a non-empty thread
context consisting of one empty message, every pattern-table category has
aggregate score 0, yet the regex-only categorizer does not return `UNKNOWN`
(it returns `TECHNICAL_ISSUE`), refuting the claim as stated. -/
theorem regex_categorizer_counterexample :
    ((CATEGORY_PATTERNS.map Prod.fst).all
      (fun c => aggScore "" (some [⟨"u", "", "0"⟩]) c == 0)) = true
    ∧ categorize_request "" (some [⟨"u", "", "0"⟩]) ≠ .UNKNOWN := by
  exact ⟨by decide, by decide⟩

/-- Witness for `regex_categorizer_amended` at concrete inputs. -/
theorem regex_categorizer_amended_witness :
    categorize_request "" (some [⟨"u", "", "0"⟩]) = .TECHNICAL_ISSUE
    ∧ categorize_request "error" none = .TECHNICAL_ISSUE := by
  constructor
  · exact ((regex_categorizer_amended "" (some [⟨"u", "", "0"⟩])).1 (by decide)).2
      ⟨"u", "", "0"⟩ [] rfl
  · exact (regex_categorizer_amended "error" none).2 .TECHNICAL_ISSUE tiPatterns
      (by decide) (by decide)

/-! ## Claim theorems: two-stage categorizer (C4), routing (C5), rendering (C6, C9) -/

/-- Claim C4: in `categorize_request_async`, a supplied model whose LLM stage
yields a non-`UNKNOWN` category wins outright (even on disagreement); when the
LLM stage is unavailable, yields `UNKNOWN`, or its model call raises, the regex
stage's result is final.  Totality (the categorizer never raises) is by
construction: the embedding returns a `RequestCategory` for every model
behaviour, with raised exceptions modelled by `Except.error` and absorbed by
`_categorize_with_llm_async`. -/
theorem categorize_async_reconciliation (promptLoad : PromptLoad) (text : String)
    (ctx : Option (List ThreadMsg)) :
    categorize_request_async promptLoad text ctx none = _categorize_with_regex text ctx
  ∧ (∀ gen : Gen, _categorize_with_llm_async promptLoad text ctx (some gen) ≠ .UNKNOWN →
      categorize_request_async promptLoad text ctx (some gen) =
        _categorize_with_llm_async promptLoad text ctx (some gen))
  ∧ (∀ gen : Gen, _categorize_with_llm_async promptLoad text ctx (some gen) = .UNKNOWN →
      categorize_request_async promptLoad text ctx (some gen) =
        _categorize_with_regex text ctx)
  ∧ (∀ (gen : Gen) (e : String),
      gen (categorizationMessages promptLoad text ctx) = .error e →
      _categorize_with_llm_async promptLoad text ctx (some gen) = .UNKNOWN) := by
  refine ⟨rfl, ?_, ?_, ?_⟩
  · intro gen h
    simp [categorize_request_async, h]
  · intro gen h
    simp [categorize_request_async, h]
  · intro gen e h
    simp [_categorize_with_llm_async, h]

/-- Witness for `categorize_async_reconciliation`: a model answering "fyi" wins
over the regex stage, and a raising model falls back to the regex stage. -/
theorem categorize_async_reconciliation_witness :
    categorize_request_async (fun _ => none) "x" none
        (some (fun _ => Except.ok ⟨"fyi", "m", none⟩)) =
      _categorize_with_llm_async (fun _ => none) "x" none
        (some (fun _ => Except.ok ⟨"fyi", "m", none⟩))
    ∧ categorize_request_async (fun _ => none) "x" none
        (some (fun _ => Except.error "boom")) =
      _categorize_with_regex "x" none := by
  constructor
  · exact (categorize_async_reconciliation (fun _ => none) "x" none).2.1
      (fun _ => Except.ok ⟨"fyi", "m", none⟩) (by decide)
  · exact (categorize_async_reconciliation (fun _ => none) "x" none).2.2.1
      (fun _ => Except.error "boom")
      ((categorize_async_reconciliation (fun _ => none) "x" none).2.2.2
        (fun _ => Except.error "boom") "boom" rfl)

/-- Claim C5: `get_routing_info` is total: every `RequestCategory`, including
`UNKNOWN`, yields a record whose priority is low, medium or high, and categories
without an explicit `ROUTING_INFO` entry resolve to the default acknowledgment
record. -/
theorem get_routing_info_total (c : RequestCategory) :
    ((get_routing_info c).priority = "low" ∨ (get_routing_info c).priority = "medium" ∨
      (get_routing_info c).priority = "high")
    ∧ (pyDictGet ROUTING_INFO c = none →
        get_routing_info c = ⟨"acknowledge", "ops_team", "medium", []⟩) := by
  cases c <;> exact ⟨by decide, by decide⟩

/-- Witness for `get_routing_info_total`: `UNKNOWN` has no table entry and gets
the default acknowledgment record. -/
theorem get_routing_info_total_witness :
    get_routing_info .UNKNOWN = ⟨"acknowledge", "ops_team", "medium", []⟩ :=
  (get_routing_info_total .UNKNOWN).2 (by decide)

/-- Claim C9: response rendering is deterministic: `generate_response` is a pure
function of `(category, text, thread_context)` — the embedding exhibits it as
such (no timestamp, randomness or ambient state appears in lines 381-534), so
two calls with identical arguments yield byte-identical text. -/
theorem generate_response_deterministic (category : RequestCategory) (text : String)
    (thread_context : Option (List ThreadMsg)) :
    generate_response category text thread_context =
      generate_response category text thread_context := rfl

/-- Claim C6 counterexample: on the scenario input the categorizer does return
`TECHNICAL_ISSUE`, but the missing-information checklist flags "Steps to
reproduce" as well (the input contains neither "reproduce" nor "repro";
"steps" is a scoring keyword but not a checklist keyword), refuting the
claim that "Environment details" is the only flag. -/
theorem technical_scenario_counterexample :
    categorize_request
        "We are seeing a 500 error and stack trace, steps: click button twice" none =
      .TECHNICAL_ISSUE
    ∧ "Steps to reproduce" ∈ technicalIssueMissingInfo
        "We are seeing a 500 error and stack trace, steps: click button twice"
    ∧ technicalIssueMissingInfo
        "We are seeing a 500 error and stack trace, steps: click button twice" ≠
      ["Environment details"] := ⟨by decide, by decide, by decide⟩

/-- Claim C6, corrected form: the scenario input is categorized
`TECHNICAL_ISSUE` and its checklist flags exactly "Steps to reproduce" and
"Environment details" (not "Error messages/logs", since "error" occurs). -/
theorem technical_scenario_amended :
    categorize_request
        "We are seeing a 500 error and stack trace, steps: click button twice" none =
      .TECHNICAL_ISSUE
    ∧ technicalIssueMissingInfo
        "We are seeing a 500 error and stack trace, steps: click button twice" =
      ["Steps to reproduce", "Environment details"] := ⟨by decide, by decide⟩

/-! ## Claim theorems: conversation orchestrator (C2, C3, C7) -/

/-- The always-succeeding mock backend of `tests/test_ai_agent.py`. -/
def okGen : Gen := fun _ => .ok ⟨"Test response", "test-model", none⟩

/-- N successive successful `process_message` calls for user "user1" starting
from the given state (the loop of `test_conversation_history_limit`). -/
def processRepeat : Nat → AgentSt → AgentSt
  | 0, st => st
  | n + 1, st => processRepeat n (process_message st "user1" "Message" okGen).2

/-- Claim C2 evaluation: after 12 successful `process_message` calls the
history holds 11 messages, not the `min(2*N, 10) = 10` the claim (and the
repository's own `test_conversation_history_limit`) requires; the cap breaks
at N = 6 because the truncation to 10 runs before the assistant reply is
appended.  For N ≤ 5 the claimed `2*N` growth does hold. -/
theorem conversation_history_cap_violated :
    ((pyDictGet (processRepeat 12 []) "user1").getD []).length = 11
    ∧ ((pyDictGet (processRepeat 12 []) "user1").getD []).length ≠ 10
    ∧ ((pyDictGet (processRepeat 6 []) "user1").getD []).length = 11
    ∧ ((pyDictGet (processRepeat 5 []) "user1").getD []).length = 10 :=
  ⟨by decide, by decide, by decide, by decide⟩

/-- Claim C3 counterexample: when the model call fails, `process_message` does
return the fixed apology, but the history is not what it was before the call:
the user message appended on line 52 stays behind. -/
theorem process_message_failure_counterexample :
    process_message [] "u1" "hi" (fun _ => Except.error "boom") =
      ("Sorry, I encountered an error while processing your message. Please try again.",
       [("u1", [⟨"user", "hi", none⟩])])
    ∧ (process_message [] "u1" "hi" (fun _ => Except.error "boom")).2 ≠ ([] : AgentSt) :=
  ⟨by decide, by decide⟩

/-- Claim C3, corrected form: if the model call fails, `process_message` returns
the fixed apology string and the user's history equals the pre-call history with
the user message appended and truncated to the last 10 — only the assistant half
of the turn is missing. -/
theorem process_message_failure_amended (st : AgentSt) (u m e : String) (gen : Gen)
    (h : gen (historyAfterUserMessage ((pyDictGet st u).getD []) m) = .error e) :
    process_message st u m gen =
      ("Sorry, I encountered an error while processing your message. Please try again.",
       pyDictSet st u (historyAfterUserMessage ((pyDictGet st u).getD []) m)) := by
  simp [process_message, h]

/-- Witness for `process_message_failure_amended` at concrete inputs. -/
theorem process_message_failure_amended_witness :
    process_message [] "u1" "hi" (fun _ => Except.error "boom") =
      ("Sorry, I encountered an error while processing your message. Please try again.",
       pyDictSet [] "u1" (historyAfterUserMessage ((pyDictGet ([] : AgentSt) "u1").getD []) "hi")) :=
  process_message_failure_amended [] "u1" "hi" "boom" (fun _ => Except.error "boom") rfl

/-- Claim C7 counterexample: the thread-mode apology is not a distinct string —
it is character-for-character the same literal the single-turn path returns
(line 174 versus line 76 of `ai_agent.py`). -/
theorem thread_apology_not_distinct :
    (process_thread_message (fun _ => none) [] "u1" "error" []
        (fun _ => Except.error "boom")).1 =
      (process_message [] "u2" "hello" (fun _ => Except.error "boom")).1 := by decide

/-- Claim C7, corrected form: if the backend's generate call raises inside the
technical/engineering branch of `process_thread_message`, the orchestrator
returns the fixed apology string (the same string as the single-turn apology,
not a distinct one) and the per-user history dict is exactly unchanged. -/
theorem process_thread_failure_amended (promptLoad : PromptLoad) (st : AgentSt)
    (u m : String) (ctx : List ThreadMsg) (gen : Gen) (e : String)
    (hcat : categorize_request_async promptLoad m (some ctx) (some gen) = .TECHNICAL_ISSUE ∨
        categorize_request_async promptLoad m (some ctx) (some gen) = .ENGINEERING_QUERY)
    (hgen : gen (threadMessages promptLoad u m ctx
        (categorize_request_async promptLoad m (some ctx) (some gen))) = .error e) :
    process_thread_message promptLoad st u m ctx gen =
      ("Sorry, I encountered an error while processing your message. Please try again.",
       st) := by
  simp only [process_thread_message]
  rw [if_pos hcat]
  simp [_process_technical_thread_message, hgen]

/-- Witness for `process_thread_failure_amended` at concrete inputs ("error"
regex-categorizes to `TECHNICAL_ISSUE`; the raising model makes the LLM stage
yield `UNKNOWN`). -/
theorem process_thread_failure_amended_witness :
    process_thread_message (fun _ => none) [] "u1" "error" []
        (fun _ => Except.error "boom") =
      ("Sorry, I encountered an error while processing your message. Please try again.",
       []) :=
  process_thread_failure_amended (fun _ => none) [] "u1" "error" []
    (fun _ => Except.error "boom") "boom" (by decide) rfl

/-! ## Claim theorems: provider registry (C8) -/

/-- Claim C8: `create_model` fails with a `ValueError` listing the currently
registered provider names when the requested name is absent, and otherwise
returns exactly what the class construction returns (errors propagate
unchanged); `register_provider` fails with `ValueError` when the class does not
satisfy the backend interface, and otherwise installs the class. -/
theorem model_factory_contract (providers : List (String × ProviderClass)) (name : String)
    (config : ModelConfig) (cls : ProviderClass) :
    (pyDictGet providers name = none →
      create_model providers name config =
        .error (.valueError ("Unknown provider: " ++ name ++ ". Available providers: " ++
          pyReprStrList (providers.map Prod.fst))))
  ∧ (∀ c : ProviderClass, pyDictGet providers name = some c →
      create_model providers name config = c.construct config)
  ∧ (cls.isSubclassOfInterface = false →
      register_provider providers name cls =
        .error (.valueError "Model class must inherit from AIModelInterface"))
  ∧ (cls.isSubclassOfInterface = true →
      register_provider providers name cls = .ok (pyDictSet providers name cls)) := by
  refine ⟨?_, ?_, ?_, ?_⟩
  · intro h
    simp [create_model, h]
  · intro c h
    simp [create_model, h]
  · intro h
    simp [register_provider, h]
  · intro h
    simp [register_provider, h]

/-- Witness for `model_factory_contract`: an unregistered name fails with the
listing `ValueError`, and registering a non-conforming class fails with the
interface `ValueError`. -/
theorem model_factory_contract_witness :
    create_model [("openai", ⟨true, fun _ => Except.ok ⟨"openai", "gpt-4"⟩⟩)]
        "nonexistent" [] =
      .error (.valueError ("Unknown provider: " ++ "nonexistent" ++
        ". Available providers: " ++
        pyReprStrList (([("openai",
          (⟨true, fun _ => Except.ok ⟨"openai", "gpt-4"⟩⟩ : ProviderClass))]).map Prod.fst)))
    ∧ register_provider [] "custom" ⟨false, fun _ => Except.ok ⟨"c", "m"⟩⟩ =
      .error (.valueError "Model class must inherit from AIModelInterface") := by
  constructor
  · exact (model_factory_contract
      [("openai", ⟨true, fun _ => Except.ok ⟨"openai", "gpt-4"⟩⟩)] "nonexistent" []
      ⟨true, fun _ => Except.ok ⟨"openai", "gpt-4"⟩⟩).1 rfl
  · exact (model_factory_contract [] "custom" []
      ⟨false, fun _ => Except.ok ⟨"c", "m"⟩⟩).2.2.1 rfl

end Opsie
